import Mathlib

/-!
Verification of the konnect-sdk request-execution and error-normalization
pipeline: a shallow embedding of `makeRequest`, `handleErrorResponse`,
`sleep`-based backoff, `wrapResponse`, and the `KonnectSDK` constructor
defaults, together with theorems about retryability, backoff schedule,
error classification, result wrapping, and the deadline timer.
-/

namespace Konnect

/-- JavaScript `v || d` on an optional string: the default is used when the
field is absent or the empty string (falsy). -/
def jsOrStr (v : Option String) (d : String) : String :=
  match v with
  | some s => if s = "" then d else s
  | none => d

/-- The structured fields of a parsed error-response body that
`handleErrorResponse` looks up (`paymentId`, `message`, `code`). -/
structure Body where
  paymentId : Option String := none
  message : Option String := none
  code : Option String := none
deriving DecidableEq

/-- A classified SDK error: the fields carried by `KonnectSDKError`
(message, optional HTTP status code, optional code string, optional
structured details), which are also exactly the fields of its `toJSON`
output. -/
structure KonnectError where
  message : String
  statusCode : Option Nat := none
  code : Option String := none
  details : Option Body := none
deriving DecidableEq

/-- `KonnectSDKError.toJSON`: rebuilds the record from the four fields. -/
def KonnectError.toJSON (e : KonnectError) : KonnectError :=
  { message := e.message, statusCode := e.statusCode, code := e.code,
    details := e.details }

/-- `new AuthenticationError()`. -/
def AuthenticationError : KonnectError :=
  { message := "Invalid or missing API key", statusCode := some 401,
    code := some "INVALID_AUTH", details := none }

/-- `new PaymentNotFoundError(paymentId)`. -/
def PaymentNotFoundError (paymentId : String) : KonnectError :=
  { message := "Payment with ID " ++ paymentId ++ " not found",
    statusCode := some 404, code := some "PAYMENT_NOT_FOUND", details := none }

/-- `new ValidationError(message, details)`. -/
def ValidationError (message : String) (details : Option Body := none) :
    KonnectError :=
  { message := message, statusCode := some 400,
    code := some "VALIDATION_ERROR", details := details }

/-- A non-2xx HTTP response as seen by `handleErrorResponse`: status,
statusText, and the JSON body (`none` when `response.json()` rejects). -/
structure ErrResponse where
  status : Nat
  statusText : String
  body : Option Body
deriving DecidableEq

/-- `handleErrorResponse`: parses the body (falling back to
`{ message: response.statusText }` when parsing fails) and classifies by
status: 401, 404, 400, and the default branch. -/
def handleErrorResponse (resp : ErrResponse) : KonnectError :=
  let data : Body :=
    match resp.body with
    | some b => b
    | none => { paymentId := none, message := some resp.statusText, code := none }
  if resp.status = 401 then
    AuthenticationError
  else if resp.status = 404 then
    PaymentNotFoundError (jsOrStr data.paymentId "unknown")
  else if resp.status = 400 then
    ValidationError (jsOrStr data.message "Validation failed") (some data)
  else
    { message := jsOrStr data.message
        ("HTTP " ++ toString resp.status ++ ": " ++ resp.statusText),
      statusCode := some resp.status, code := data.code, details := some data }

/-- The outcome of one transport attempt inside `makeRequest`: a 2xx
response with parsed value, a non-2xx response (routed through
`handleErrorResponse`), or a transport-level rejection of `fetch`
(network error or abort) carrying the thrown `Error`'s message. -/
inductive Attempt (T : Type) where
  | ok (v : T)
  | httpError (resp : ErrResponse)
  | netError (msg : String)
deriving DecidableEq

/-- The value caught by the `catch` block: either a classified
`KonnectSDKError` (from `handleErrorResponse`) or a plain `Error`. -/
inductive Caught where
  | classified (e : KonnectError)
  | plain (msg : String)
deriving DecidableEq

/-- The `.message` of a caught error. -/
def Caught.message : Caught → String
  | .classified e => e.message
  | .plain m => m

/-- The terminal-failure test of `makeRequest`:
`error instanceof KonnectSDKError && error.statusCode` (truthy, hence
nonzero) `&& statusCode >= 400 && statusCode < 500 && statusCode !== 429`. -/
def isTerminal (e : KonnectError) : Bool :=
  match e.statusCode with
  | some s => (s != 0) && decide (400 ≤ s) && decide (s < 500) && (s != 429)
  | none => false

/-- The error thrown after the loop exits:
`new KonnectSDKError(lastError?.message || 'Request failed after retries',
undefined, 'REQUEST_FAILED')`. -/
def genericFailure (lastError : Option Caught) : KonnectError :=
  { message := jsOrStr (lastError.map Caught.message) "Request failed after retries",
    statusCode := none, code := some "REQUEST_FAILED", details := none }

/-- The request configuration handed to `makeRequest`. -/
structure RequestConfig where
  timeout : Nat
  retryAttempts : Nat
deriving DecidableEq

/-- Decidable equality on `Except` results, used to evaluate run outcomes
on concrete inputs. -/
instance {ε α : Type} [DecidableEq ε] [DecidableEq α] :
    DecidableEq (Except ε α) := fun a b =>
  match a, b with
  | .ok x, .ok y =>
    if h : x = y then .isTrue (by rw [h])
    else .isFalse (fun hh => h (Except.ok.inj hh))
  | .error x, .error y =>
    if h : x = y then .isTrue (by rw [h])
    else .isFalse (fun hh => h (Except.error.inj hh))
  | .ok _, .error _ => .isFalse (fun hh => Except.noConfusion hh)
  | .error _, .ok _ => .isFalse (fun hh => Except.noConfusion hh)

/-- The observable outcome of a `makeRequest` run: the returned value or
thrown error, the list of sleep durations in order, the number of `fetch`
calls made, for each `fetch` call whether the deadline timer was still
armed when it was issued, whether a timer is still armed when the call
exits, and the list of timers armed during the call (with durations). -/
structure RunResult (T : Type) where
  result : Except KonnectError T
  sleeps : List Nat
  calls : Nat
  fetchLog : List Bool
  armedAtExit : Bool
  armedTimers : List Nat
deriving DecidableEq

/-- The retry loop of `makeRequest`, one step per attempt. `remaining`
counts attempts still allowed (`retryAttempts - attempt`), `a` is the
0-indexed attempt counter, `armed` tracks whether the deadline timer is
still pending (`clearTimeout` on line 151 fires as soon as `fetch`
resolves; line 178 fires when the loop exits). On a terminal classified
error the error is rethrown at once; on the last attempt the loop breaks
to the generic `REQUEST_FAILED` throw; otherwise it sleeps
`2 ** attempt * 1000` ms and continues. -/
def makeRequestLoop {T : Type} (tr : Nat → Attempt T) (timers : List Nat) :
    Nat → Nat → Option Caught → Bool → List Nat → Nat → List Bool → RunResult T
  | 0, _, lastError, _, sleeps, calls, log =>
    ⟨.error (genericFailure lastError), sleeps, calls, log, false, timers⟩
  | r + 1, a, _, armed, sleeps, calls, log =>
    match tr a with
    | .ok v => ⟨.ok v, sleeps, calls + 1, log ++ [armed], false, timers⟩
    | .httpError resp =>
      let e := handleErrorResponse resp
      if isTerminal e then
        ⟨.error e, sleeps, calls + 1, log ++ [armed], false, timers⟩
      else if r = 0 then
        ⟨.error (genericFailure (some (.classified e))), sleeps, calls + 1,
          log ++ [armed], false, timers⟩
      else
        makeRequestLoop tr timers r (a + 1) (some (.classified e)) false
          (sleeps ++ [2 ^ a * 1000]) (calls + 1) (log ++ [armed])
    | .netError msg =>
      if r = 0 then
        ⟨.error (genericFailure (some (.plain msg))), sleeps, calls + 1,
          log ++ [armed], false, timers⟩
      else
        makeRequestLoop tr timers r (a + 1) (some (.plain msg)) armed
          (sleeps ++ [2 ^ a * 1000]) (calls + 1) (log ++ [armed])

/-- `makeRequest(url, options, config)`: arms one deadline timer of
`config.timeout` ms, then runs the retry loop for `config.retryAttempts`
attempts starting with no recorded last error. -/
def makeRequest {T : Type} (tr : Nat → Attempt T) (config : RequestConfig) :
    RunResult T :=
  makeRequestLoop tr [config.timeout] config.retryAttempts 0 none true [] 0 []

/-- Retryability per the spec's taxonomy: HTTP 429, HTTP 500+, or a
transport-level failure. -/
def retryableAttempt {T : Type} : Attempt T → Bool
  | .ok _ => false
  | .httpError resp => (resp.status == 429) || decide (500 ≤ resp.status)
  | .netError _ => true

/-- The expected backoff schedule: sleeps for attempts `a, a+1, ...`,
`r` of them. -/
def expSleeps : Nat → Nat → List Nat
  | _, 0 => []
  | a, r + 1 => 2 ^ a * 1000 :: expSleeps (a + 1) r

/-- A value thrown through `wrapResponse`: a classified `KonnectSDKError`,
a plain `Error` with a message, or a non-`Error` value. -/
inductive Thrown where
  | sdkError (e : KonnectError)
  | jsError (msg : String)
  | nonError
deriving DecidableEq

/-- The `{data, error}` envelope returned by `wrapResponse`. -/
structure ApiResponse (T : Type) where
  data : Option T
  error : Option KonnectError
deriving DecidableEq

/-- `wrapResponse(fn)`: success gives `{data, error: null}`; a caught
`KonnectSDKError` gives `{data: null, error: error.toJSON()}`; any other
failure gives `{data: null, error: {message, code: 'UNKNOWN_ERROR'}}` with
the message taken from the `Error` or the literal `"Unknown error"`. -/
def wrapResponse {T : Type} (fn : Except Thrown T) : ApiResponse T :=
  match fn with
  | .ok v => ⟨some v, none⟩
  | .error (.sdkError e) => ⟨none, some e.toJSON⟩
  | .error (.jsError m) =>
    ⟨none, some { message := m, statusCode := none,
                  code := some "UNKNOWN_ERROR", details := none }⟩
  | .error .nonError =>
    ⟨none, some { message := "Unknown error", statusCode := none,
                  code := some "UNKNOWN_ERROR", details := none }⟩

/-- JavaScript truthiness of an optional number: present and nonzero. -/
def intTruthy : Option Int → Bool
  | some k => k != 0
  | none => false

/-- JavaScript `v || d` on an optional number: the default is used when the
value is absent or `0` (falsy). -/
def jsOrInt (v : Option Int) (d : Int) : Int :=
  match v with
  | some k => if k = 0 then d else k
  | none => d

/-- The `KonnectConfig` fields that the constructor and `validateConfig`
consult (apiKey, timeout, retryAttempts). -/
structure KonnectConfig where
  apiKey : String
  timeout : Option Int := none
  retryAttempts : Option Int := none
deriving DecidableEq

/-- The test `!apiKey || apiKey.trim() === ''`: the key is absent or all
whitespace. -/
def isBlank (s : String) : Bool := s.data.all Char.isWhitespace

/-- `validateConfig`: rejects a missing/blank API key, then a truthy
negative timeout, then a truthy negative retryAttempts. -/
def validateConfig (config : KonnectConfig) : Option KonnectError :=
  if isBlank config.apiKey then
    some (ValidationError "API key is required")
  else if intTruthy config.timeout && decide (config.timeout.getD 0 < 0) then
    some (ValidationError "Timeout must be a positive number")
  else if intTruthy config.retryAttempts &&
      decide (config.retryAttempts.getD 0 < 0) then
    some (ValidationError "Retry attempts must be a positive number")
  else
    none

/-- The immutable per-client state set by the `KonnectSDK` constructor. -/
structure SDKState where
  apiKey : String
  timeout : Nat
  retryAttempts : Nat
deriving DecidableEq

/-- The `KonnectSDK` constructor: runs `validateConfig`, then stores
`config.timeout || 30000` and `config.retryAttempts || 3`. -/
def KonnectSDK.new (config : KonnectConfig) : Except KonnectError SDKState :=
  match validateConfig config with
  | some e => .error e
  | none =>
    .ok { apiKey := config.apiKey,
          timeout := (jsOrInt config.timeout 30000).toNat,
          retryAttempts := (jsOrInt config.retryAttempts 3).toNat }

/-- `KonnectSDK.request`: forwards the stored timeout and retryAttempts to
`makeRequest`. -/
def KonnectSDK.request {T : Type} (s : SDKState) (tr : Nat → Attempt T) :
    RunResult T :=
  makeRequest tr { timeout := s.timeout, retryAttempts := s.retryAttempts }

/-- The classified error always carries the response's status code,
whatever the branch of the classifier. -/
theorem handleErrorResponse_statusCode (resp : ErrResponse) :
    (handleErrorResponse resp).statusCode = some resp.status := by
  unfold handleErrorResponse
  split_ifs with h1 h2 h3 <;>
    simp_all [AuthenticationError, PaymentNotFoundError, ValidationError]

/-- The terminal-failure test on a classifier output, expressed on the
response's status. -/
theorem isTerminal_handleError (resp : ErrResponse) :
    isTerminal (handleErrorResponse resp) =
      ((resp.status != 0) && decide (400 ≤ resp.status) &&
        decide (resp.status < 500) && (resp.status != 429)) := by
  unfold isTerminal
  rw [handleErrorResponse_statusCode]

/-- A classified client error (400-499 other than 429) is terminal. -/
theorem isTerminal_true_of_client (resp : ErrResponse)
    (h1 : 400 ≤ resp.status) (h2 : resp.status < 500)
    (h3 : resp.status ≠ 429) :
    isTerminal (handleErrorResponse resp) = true := by
  rw [isTerminal_handleError]
  simp only [Bool.and_eq_true, bne_iff_ne, ne_eq, decide_eq_true_eq]
  refine ⟨⟨⟨?_, h1⟩, h2⟩, h3⟩
  omega

/-- A classified 429 or 5xx error is not terminal. -/
theorem isTerminal_false_of_retryable (resp : ErrResponse)
    (h : resp.status = 429 ∨ 500 ≤ resp.status) :
    isTerminal (handleErrorResponse resp) = false := by
  rw [isTerminal_handleError]
  rcases h with h | h
  · simp [h]
  · have h5 : decide (resp.status < 500) = false := by
      simp only [decide_eq_false_iff_not, not_lt]
      omega
    simp [h5]

/-- `jsOrStr` never yields the empty string when its fallback is
nonempty. -/
theorem jsOrStr_ne_empty (v : Option String) (d : String) (hd : d ≠ "") :
    jsOrStr v d ≠ "" := by
  unfold jsOrStr
  cases v with
  | none => exact hd
  | some s =>
    by_cases hs : s = ""
    · simp [hs, hd]
    · simp [hs]

/-- Appending to the fixed classifier prefixes cannot produce the empty
string. -/
theorem append_ne_empty (x y : String) (hx : x ≠ "") : x ++ y ≠ "" := by
  intro h
  apply hx
  apply String.ext
  have hd : x.data ++ y.data = [] := by
    have hda := congrArg String.data h
    rwa [String.data_append] at hda
  have hl : x.data = [] := (List.append_eq_nil.mp hd).1
  rw [hl]

/-- The classifier never produces an empty message. -/
theorem handleErrorResponse_message_ne_empty (resp : ErrResponse) :
    (handleErrorResponse resp).message ≠ "" := by
  unfold handleErrorResponse
  split_ifs with h1 h2 h3
  · simp [AuthenticationError]
  · simp only [PaymentNotFoundError]
    exact append_ne_empty _ _ (append_ne_empty _ _ (by decide))
  · simp only [ValidationError]
    exact jsOrStr_ne_empty _ _ (by decide)
  · exact jsOrStr_ne_empty _ _
      (append_ne_empty _ _ (append_ne_empty _ _ (append_ne_empty _ _ (by decide))))

/-- When the caught error's message is nonempty, the generic throw after
the loop keeps that message and replaces everything else. -/
theorem genericFailure_classified (e : KonnectError) (h : e.message ≠ "") :
    genericFailure (some (.classified e)) =
      { message := e.message, statusCode := none,
        code := some "REQUEST_FAILED", details := none } := by
  simp [genericFailure, jsOrStr, Caught.message, h]

/-- One-step unfolding of the loop when no attempt remains. -/
theorem makeRequestLoop_zero {T : Type} {tr : Nat → Attempt T}
    {timers : List Nat} {a : Nat} {le : Option Caught} {armed : Bool}
    {sleeps : List Nat} {calls : Nat} {log : List Bool} :
    makeRequestLoop tr timers 0 a le armed sleeps calls log =
      ⟨.error (genericFailure le), sleeps, calls, log, false, timers⟩ := rfl

/-- One-step unfolding of the loop on a successful (2xx) attempt. -/
theorem makeRequestLoop_ok {T : Type} {tr : Nat → Attempt T}
    {timers : List Nat} {r a : Nat} {le : Option Caught} {armed : Bool}
    {sleeps : List Nat} {calls : Nat} {log : List Bool} {v : T}
    (h : tr a = .ok v) :
    makeRequestLoop tr timers (r + 1) a le armed sleeps calls log =
      ⟨.ok v, sleeps, calls + 1, log ++ [armed], false, timers⟩ := by
  conv_lhs => rw [makeRequestLoop]
  rw [h]

/-- One-step unfolding of the loop on a terminal classified error. -/
theorem makeRequestLoop_http_terminal {T : Type} {tr : Nat → Attempt T}
    {timers : List Nat} {r a : Nat} {le : Option Caught} {armed : Bool}
    {sleeps : List Nat} {calls : Nat} {log : List Bool} {resp : ErrResponse}
    (h : tr a = .httpError resp)
    (ht : isTerminal (handleErrorResponse resp) = true) :
    makeRequestLoop tr timers (r + 1) a le armed sleeps calls log =
      ⟨.error (handleErrorResponse resp), sleeps, calls + 1,
        log ++ [armed], false, timers⟩ := by
  conv_lhs => rw [makeRequestLoop]
  rw [h]
  simp [ht]

/-- One-step unfolding of the loop on a non-terminal classified error in
the last allowed attempt. -/
theorem makeRequestLoop_http_last {T : Type} {tr : Nat → Attempt T}
    {timers : List Nat} {a : Nat} {le : Option Caught} {armed : Bool}
    {sleeps : List Nat} {calls : Nat} {log : List Bool} {resp : ErrResponse}
    (h : tr a = .httpError resp)
    (ht : isTerminal (handleErrorResponse resp) = false) :
    makeRequestLoop tr timers 1 a le armed sleeps calls log =
      ⟨.error (genericFailure (some (.classified (handleErrorResponse resp)))),
        sleeps, calls + 1, log ++ [armed], false, timers⟩ := by
  conv_lhs => rw [makeRequestLoop]
  rw [h]
  simp [ht]

/-- One-step unfolding of the loop on a non-terminal classified error with
attempts remaining: sleep `2 ^ attempt * 1000` and continue. -/
theorem makeRequestLoop_http_retry {T : Type} {tr : Nat → Attempt T}
    {timers : List Nat} {r a : Nat} {le : Option Caught} {armed : Bool}
    {sleeps : List Nat} {calls : Nat} {log : List Bool} {resp : ErrResponse}
    (h : tr a = .httpError resp)
    (ht : isTerminal (handleErrorResponse resp) = false) (hr : r ≠ 0) :
    makeRequestLoop tr timers (r + 1) a le armed sleeps calls log =
      makeRequestLoop tr timers r (a + 1)
        (some (.classified (handleErrorResponse resp))) false
        (sleeps ++ [2 ^ a * 1000]) (calls + 1) (log ++ [armed]) := by
  conv_lhs => rw [makeRequestLoop]
  rw [h]
  simp [ht, hr]

/-- One-step unfolding of the loop on a transport failure in the last
allowed attempt. -/
theorem makeRequestLoop_net_last {T : Type} {tr : Nat → Attempt T}
    {timers : List Nat} {a : Nat} {le : Option Caught} {armed : Bool}
    {sleeps : List Nat} {calls : Nat} {log : List Bool} {m : String}
    (h : tr a = .netError m) :
    makeRequestLoop tr timers 1 a le armed sleeps calls log =
      ⟨.error (genericFailure (some (.plain m))), sleeps, calls + 1,
        log ++ [armed], false, timers⟩ := by
  conv_lhs => rw [makeRequestLoop]
  rw [h]
  simp

/-- One-step unfolding of the loop on a transport failure with attempts
remaining: sleep and continue, timer state unchanged (the `clearTimeout`
after `fetch` was never reached). -/
theorem makeRequestLoop_net_retry {T : Type} {tr : Nat → Attempt T}
    {timers : List Nat} {r a : Nat} {le : Option Caught} {armed : Bool}
    {sleeps : List Nat} {calls : Nat} {log : List Bool} {m : String}
    (h : tr a = .netError m) (hr : r ≠ 0) :
    makeRequestLoop tr timers (r + 1) a le armed sleeps calls log =
      makeRequestLoop tr timers r (a + 1) (some (.plain m)) armed
        (sleeps ++ [2 ^ a * 1000]) (calls + 1) (log ++ [armed]) := by
  conv_lhs => rw [makeRequestLoop]
  rw [h]
  simp [hr]

/-- On every exit path of the retry loop the deadline timer has been
cleared. -/
theorem makeRequestLoop_armedAtExit {T : Type} (tr : Nat → Attempt T)
    (timers : List Nat) :
    ∀ r a le armed sleeps calls log,
      (makeRequestLoop tr timers r a le armed sleeps calls log).armedAtExit
        = false := by
  intro r
  induction r with
  | zero => intro a le armed sleeps calls log; rw [makeRequestLoop_zero]
  | succ r ih =>
    intro a le armed sleeps calls log
    cases h : tr a with
    | ok v => rw [makeRequestLoop_ok h]
    | httpError resp =>
      cases ht : isTerminal (handleErrorResponse resp) with
      | true => rw [makeRequestLoop_http_terminal h ht]
      | false =>
        cases r with
        | zero => rw [makeRequestLoop_http_last h ht]
        | succ r2 =>
          rw [makeRequestLoop_http_retry h ht (Nat.succ_ne_zero r2)]
          exact ih _ _ _ _ _ _
    | netError m =>
      cases r with
      | zero => rw [makeRequestLoop_net_last h]
      | succ r2 =>
        rw [makeRequestLoop_net_retry h (Nat.succ_ne_zero r2)]
        exact ih _ _ _ _ _ _

/-- The loop never arms a timer: the list of armed timers threads through
unchanged. -/
theorem makeRequestLoop_armedTimers {T : Type} (tr : Nat → Attempt T)
    (timers : List Nat) :
    ∀ r a le armed sleeps calls log,
      (makeRequestLoop tr timers r a le armed sleeps calls log).armedTimers
        = timers := by
  intro r
  induction r with
  | zero => intro a le armed sleeps calls log; rw [makeRequestLoop_zero]
  | succ r ih =>
    intro a le armed sleeps calls log
    cases h : tr a with
    | ok v => rw [makeRequestLoop_ok h]
    | httpError resp =>
      cases ht : isTerminal (handleErrorResponse resp) with
      | true => rw [makeRequestLoop_http_terminal h ht]
      | false =>
        cases r with
        | zero => rw [makeRequestLoop_http_last h ht]
        | succ r2 =>
          rw [makeRequestLoop_http_retry h ht (Nat.succ_ne_zero r2)]
          exact ih _ _ _ _ _ _
    | netError m =>
      cases r with
      | zero => rw [makeRequestLoop_net_last h]
      | succ r2 =>
        rw [makeRequestLoop_net_retry h (Nat.succ_ne_zero r2)]
        exact ih _ _ _ _ _ _

/-- The number of transport calls only grows from its accumulator. -/
theorem makeRequestLoop_calls_mono {T : Type} (tr : Nat → Attempt T)
    (timers : List Nat) :
    ∀ r a le armed sleeps calls log,
      calls ≤ (makeRequestLoop tr timers r a le armed sleeps calls log).calls := by
  intro r
  induction r with
  | zero => intro a le armed sleeps calls log; rw [makeRequestLoop_zero]
  | succ r ih =>
    intro a le armed sleeps calls log
    cases h : tr a with
    | ok v => rw [makeRequestLoop_ok h]; exact Nat.le_succ calls
    | httpError resp =>
      cases ht : isTerminal (handleErrorResponse resp) with
      | true => rw [makeRequestLoop_http_terminal h ht]; exact Nat.le_succ calls
      | false =>
        cases r with
        | zero => rw [makeRequestLoop_http_last h ht]; exact Nat.le_succ calls
        | succ r2 =>
          rw [makeRequestLoop_http_retry h ht (Nat.succ_ne_zero r2)]
          exact le_trans (Nat.le_succ calls) (ih _ _ _ _ _ _)
    | netError m =>
      cases r with
      | zero => rw [makeRequestLoop_net_last h]; exact Nat.le_succ calls
      | succ r2 =>
        rw [makeRequestLoop_net_retry h (Nat.succ_ne_zero r2)]
        exact le_trans (Nat.le_succ calls) (ih _ _ _ _ _ _)

/-- As long as an attempt remains, the loop issues at least one more
transport call. -/
theorem makeRequestLoop_calls_pos {T : Type} (tr : Nat → Attempt T)
    (timers : List Nat) (r a : Nat) (le : Option Caught) (armed : Bool)
    (sleeps : List Nat) (calls : Nat) (log : List Bool) :
    calls + 1 ≤
      (makeRequestLoop tr timers (r + 1) a le armed sleeps calls log).calls := by
  cases h : tr a with
  | ok v => rw [makeRequestLoop_ok h]
  | httpError resp =>
    cases ht : isTerminal (handleErrorResponse resp) with
    | true => rw [makeRequestLoop_http_terminal h ht]
    | false =>
      cases r with
      | zero => rw [makeRequestLoop_http_last h ht]
      | succ r2 =>
        rw [makeRequestLoop_http_retry h ht (Nat.succ_ne_zero r2)]
        exact makeRequestLoop_calls_mono tr timers _ _ _ _ _ _ _
  | netError m =>
    cases r with
    | zero => rw [makeRequestLoop_net_last h]
    | succ r2 =>
      rw [makeRequestLoop_net_retry h (Nat.succ_ne_zero r2)]
      exact makeRequestLoop_calls_mono tr timers _ _ _ _ _ _ _

/-- The loop makes at most `remaining` further transport calls. -/
theorem makeRequestLoop_calls_le {T : Type} (tr : Nat → Attempt T)
    (timers : List Nat) :
    ∀ r a le armed sleeps calls log,
      (makeRequestLoop tr timers r a le armed sleeps calls log).calls
        ≤ calls + r := by
  intro r
  induction r with
  | zero =>
    intro a le armed sleeps calls log
    rw [makeRequestLoop_zero]
    exact Nat.le_add_right calls 0
  | succ r ih =>
    intro a le armed sleeps calls log
    cases h : tr a with
    | ok v =>
      rw [makeRequestLoop_ok h]
      exact Nat.add_le_add_left (Nat.succ_le_succ (Nat.zero_le r)) calls
    | httpError resp =>
      cases ht : isTerminal (handleErrorResponse resp) with
      | true =>
        rw [makeRequestLoop_http_terminal h ht]
        exact Nat.add_le_add_left (Nat.succ_le_succ (Nat.zero_le r)) calls
      | false =>
        cases r with
        | zero => rw [makeRequestLoop_http_last h ht]
        | succ r2 =>
          rw [makeRequestLoop_http_retry h ht (Nat.succ_ne_zero r2)]
          have hle := ih (a + 1)
            (some (.classified (handleErrorResponse resp))) false
            (sleeps ++ [2 ^ a * 1000]) (calls + 1) (log ++ [armed])
          exact Nat.le_trans hle (by omega)
    | netError m =>
      cases r with
      | zero => rw [makeRequestLoop_net_last h]
      | succ r2 =>
        rw [makeRequestLoop_net_retry h (Nat.succ_ne_zero r2)]
        have hle := ih (a + 1) (some (.plain m)) armed
          (sleeps ++ [2 ^ a * 1000]) (calls + 1) (log ++ [armed])
        exact Nat.le_trans hle (by omega)

/-- The fetch log only grows from its accumulator. -/
theorem makeRequestLoop_fetchLog_grows {T : Type} (tr : Nat → Attempt T)
    (timers : List Nat) :
    ∀ r a le armed sleeps calls log,
      ∃ rest,
        (makeRequestLoop tr timers r a le armed sleeps calls log).fetchLog
          = log ++ rest := by
  intro r
  induction r with
  | zero =>
    intro a le armed sleeps calls log
    exact ⟨[], by rw [makeRequestLoop_zero]; simp⟩
  | succ r ih =>
    intro a le armed sleeps calls log
    cases h : tr a with
    | ok v => exact ⟨[armed], by rw [makeRequestLoop_ok h]⟩
    | httpError resp =>
      cases ht : isTerminal (handleErrorResponse resp) with
      | true => exact ⟨[armed], by rw [makeRequestLoop_http_terminal h ht]⟩
      | false =>
        cases r with
        | zero => exact ⟨[armed], by rw [makeRequestLoop_http_last h ht]⟩
        | succ r2 =>
          obtain ⟨rest, hrest⟩ := ih (a + 1)
            (some (.classified (handleErrorResponse resp))) false
            (sleeps ++ [2 ^ a * 1000]) (calls + 1) (log ++ [armed])
          refine ⟨armed :: rest, ?_⟩
          rw [makeRequestLoop_http_retry h ht (Nat.succ_ne_zero r2), hrest]
          simp
    | netError m =>
      cases r with
      | zero => exact ⟨[armed], by rw [makeRequestLoop_net_last h]⟩
      | succ r2 =>
        obtain ⟨rest, hrest⟩ := ih (a + 1) (some (.plain m)) armed
          (sleeps ++ [2 ^ a * 1000]) (calls + 1) (log ++ [armed])
        refine ⟨armed :: rest, ?_⟩
        rw [makeRequestLoop_net_retry h (Nat.succ_ne_zero r2), hrest]
        simp

/-- When an attempt remains, the next fetch in the log carries the current
armed state. -/
theorem makeRequestLoop_fetchLog_cons {T : Type} (tr : Nat → Attempt T)
    (timers : List Nat) (r a : Nat) (le : Option Caught) (armed : Bool)
    (sleeps : List Nat) (calls : Nat) (log : List Bool) :
    ∃ rest,
      (makeRequestLoop tr timers (r + 1) a le armed sleeps calls log).fetchLog
        = log ++ armed :: rest := by
  cases h : tr a with
  | ok v => exact ⟨[], by rw [makeRequestLoop_ok h]⟩
  | httpError resp =>
    cases ht : isTerminal (handleErrorResponse resp) with
    | true => exact ⟨[], by rw [makeRequestLoop_http_terminal h ht]⟩
    | false =>
      cases r with
      | zero => exact ⟨[], by rw [makeRequestLoop_http_last h ht]⟩
      | succ r2 =>
        obtain ⟨rest, hrest⟩ := makeRequestLoop_fetchLog_grows tr timers
          (r2 + 1) (a + 1) (some (.classified (handleErrorResponse resp)))
          false (sleeps ++ [2 ^ a * 1000]) (calls + 1) (log ++ [armed])
        refine ⟨rest, ?_⟩
        rw [makeRequestLoop_http_retry h ht (Nat.succ_ne_zero r2), hrest]
        simp
  | netError m =>
    cases r with
    | zero => exact ⟨[], by rw [makeRequestLoop_net_last h]⟩
    | succ r2 =>
      obtain ⟨rest, hrest⟩ := makeRequestLoop_fetchLog_grows tr timers
        (r2 + 1) (a + 1) (some (.plain m)) armed
        (sleeps ++ [2 ^ a * 1000]) (calls + 1) (log ++ [armed])
      refine ⟨rest, ?_⟩
      rw [makeRequestLoop_net_retry h (Nat.succ_ne_zero r2), hrest]
      simp

/-- A retryable HTTP failure (429 or 5xx) never passes the terminal
test. -/
theorem retryable_http_not_terminal {T : Type} {resp : ErrResponse}
    (h : retryableAttempt (T := T) (.httpError resp) = true) :
    isTerminal (handleErrorResponse resp) = false := by
  apply isTerminal_false_of_retryable
  simpa [retryableAttempt] using h

/-- When every attempt in range fails retryably, the loop consumes all
remaining attempts and sleeps the exponential schedule between them. -/
theorem makeRequestLoop_all_retryable {T : Type} (tr : Nat → Attempt T)
    (timers : List Nat) :
    ∀ r a le armed sleeps calls log,
      (∀ i, a ≤ i → i < a + r → retryableAttempt (tr i) = true) →
      (makeRequestLoop tr timers r a le armed sleeps calls log).sleeps
          = sleeps ++ expSleeps a (r - 1) ∧
      (makeRequestLoop tr timers r a le armed sleeps calls log).calls
          = calls + r := by
  intro r
  induction r with
  | zero =>
    intro a le armed sleeps calls log _
    rw [makeRequestLoop_zero]
    exact ⟨by simp [expSleeps], rfl⟩
  | succ r ih =>
    intro a le armed sleeps calls log hall
    have ha : retryableAttempt (tr a) = true := hall a (Nat.le_refl a) (by omega)
    cases h : tr a with
    | ok v => rw [h] at ha; simp [retryableAttempt] at ha
    | httpError resp =>
      have ht : isTerminal (handleErrorResponse resp) = false := by
        rw [h] at ha
        exact retryable_http_not_terminal ha
      cases r with
      | zero =>
        rw [makeRequestLoop_http_last h ht]
        exact ⟨by simp [expSleeps], rfl⟩
      | succ r2 =>
        rw [makeRequestLoop_http_retry h ht (Nat.succ_ne_zero r2)]
        have hall2 : ∀ i, a + 1 ≤ i → i < (a + 1) + (r2 + 1) →
            retryableAttempt (tr i) = true := by
          intro i h1 h2
          exact hall i (by omega) (by omega)
        obtain ⟨hs, hc⟩ := ih (a + 1)
          (some (.classified (handleErrorResponse resp))) false
          (sleeps ++ [2 ^ a * 1000]) (calls + 1) (log ++ [armed]) hall2
        refine ⟨hs.trans ?_, hc.trans (by omega)⟩
        simp [expSleeps]
    | netError m =>
      cases r with
      | zero =>
        rw [makeRequestLoop_net_last h]
        exact ⟨by simp [expSleeps], rfl⟩
      | succ r2 =>
        rw [makeRequestLoop_net_retry h (Nat.succ_ne_zero r2)]
        have hall2 : ∀ i, a + 1 ≤ i → i < (a + 1) + (r2 + 1) →
            retryableAttempt (tr i) = true := by
          intro i h1 h2
          exact hall i (by omega) (by omega)
        obtain ⟨hs, hc⟩ := ih (a + 1) (some (.plain m)) armed
          (sleeps ++ [2 ^ a * 1000]) (calls + 1) (log ++ [armed]) hall2
        refine ⟨hs.trans ?_, hc.trans (by omega)⟩
        simp [expSleeps]

/-- The exponential schedule written as a map over `List.range`. -/
theorem expSleeps_eq_range_map : ∀ (r a : Nat),
    expSleeps a r = (List.range r).map (fun j => 2 ^ (a + j) * 1000) := by
  intro r
  induction r with
  | zero => intro a; simp [expSleeps]
  | succ r ih =>
    intro a
    have hcomp : ((fun j => 2 ^ (a + j) * 1000) ∘ Nat.succ)
        = (fun j => 2 ^ (a + 1 + j) * 1000) := by
      funext j
      have hexp : a + Nat.succ j = a + 1 + j := by omega
      simp [Function.comp, hexp]
    rw [List.range_succ_eq_map, List.map_cons, List.map_map, hcomp]
    simp only [expSleeps, ih (a + 1)]
    simp

/-- Transport returning 403 forever, for the C1 witness. -/
def trC1 : Nat → Attempt Nat := fun _ => .httpError ⟨403, "Forbidden", some {}⟩

/-- Transport returning 429 forever, for the C1 witness. -/
def trC1b : Nat → Attempt Nat :=
  fun _ => .httpError ⟨429, "Too Many Requests", some {}⟩

/-- Transport failing at the network level forever, for the C1 witness. -/
def trC1c : Nat → Attempt Nat := fun _ => .netError "down"

/-- Claim C1: an error raised during any attempt that carries an HTTP
status in 400-499 excluding 429 makes `makeRequest` propagate that
classified error immediately and unchanged — no further sleeps, no further
transport calls, regardless of how many attempts remain — while 429, 5xx
and status-less transport failures are retried when attempts remain. -/
theorem makeRequest_client_error_terminal :
    (∀ (T : Type) (tr : Nat → Attempt T) (timers : List Nat) (r a : Nat)
        (le : Option Caught) (armed : Bool) (sleeps : List Nat) (calls : Nat)
        (log : List Bool) (resp : ErrResponse),
      tr a = .httpError resp → 400 ≤ resp.status → resp.status < 500 →
      resp.status ≠ 429 →
      makeRequestLoop tr timers (r + 1) a le armed sleeps calls log =
        ⟨.error (handleErrorResponse resp), sleeps, calls + 1,
          log ++ [armed], false, timers⟩) ∧
    (∀ (T : Type) (tr : Nat → Attempt T) (t n : Nat) (resp : ErrResponse),
      tr 0 = .httpError resp → 400 ≤ resp.status → resp.status < 500 →
      resp.status ≠ 429 →
      makeRequest tr ⟨t, n + 1⟩ =
        ⟨.error (handleErrorResponse resp), [], 1, [true], false, [t]⟩) ∧
    (∀ (T : Type) (tr : Nat → Attempt T) (timers : List Nat) (r a : Nat)
        (le : Option Caught) (armed : Bool) (sleeps : List Nat) (calls : Nat)
        (log : List Bool) (resp : ErrResponse),
      tr a = .httpError resp → (resp.status = 429 ∨ 500 ≤ resp.status) →
      makeRequestLoop tr timers (r + 2) a le armed sleeps calls log =
        makeRequestLoop tr timers (r + 1) (a + 1)
          (some (.classified (handleErrorResponse resp))) false
          (sleeps ++ [2 ^ a * 1000]) (calls + 1) (log ++ [armed])) ∧
    (∀ (T : Type) (tr : Nat → Attempt T) (timers : List Nat) (r a : Nat)
        (le : Option Caught) (armed : Bool) (sleeps : List Nat) (calls : Nat)
        (log : List Bool) (m : String),
      tr a = .netError m →
      makeRequestLoop tr timers (r + 2) a le armed sleeps calls log =
        makeRequestLoop tr timers (r + 1) (a + 1) (some (.plain m)) armed
          (sleeps ++ [2 ^ a * 1000]) (calls + 1) (log ++ [armed])) := by
  refine ⟨?_, ?_, ?_, ?_⟩
  · intro T tr timers r a le armed sleeps calls log resp h h4 h5 h9
    exact makeRequestLoop_http_terminal h (isTerminal_true_of_client resp h4 h5 h9)
  · intro T tr t n resp h h4 h5 h9
    show makeRequestLoop tr [t] (n + 1) 0 none true [] 0 [] = _
    rw [makeRequestLoop_http_terminal h (isTerminal_true_of_client resp h4 h5 h9)]
    simp
  · intro T tr timers r a le armed sleeps calls log resp h hr
    exact makeRequestLoop_http_retry h (isTerminal_false_of_retryable resp hr)
      (Nat.succ_ne_zero r)
  · intro T tr timers r a le armed sleeps calls log m h
    exact makeRequestLoop_net_retry h (Nat.succ_ne_zero r)

/-- Claim C1 witness: concrete instances — a 403 fails immediately on the
first attempt with no sleeps, while 429 and a network error continue to
the next attempt. -/
theorem makeRequest_client_error_terminal_witness :
    makeRequest trC1 ⟨30000, 3⟩ =
      ⟨.error (handleErrorResponse ⟨403, "Forbidden", some {}⟩), [], 1,
        [true], false, [30000]⟩ ∧
    makeRequestLoop trC1b [30000] 2 0 none true [] 0 [] =
      makeRequestLoop trC1b [30000] 1 1
        (some (.classified
          (handleErrorResponse ⟨429, "Too Many Requests", some {}⟩))) false
        [1000] 1 [true] ∧
    makeRequestLoop trC1c [30000] 2 0 none true [] 0 [] =
      makeRequestLoop trC1c [30000] 1 1 (some (.plain "down")) true
        [1000] 1 [true] := by
  refine ⟨?_, ?_, ?_⟩
  · exact makeRequest_client_error_terminal.2.1 Nat trC1 30000 2
      ⟨403, "Forbidden", some {}⟩ rfl (by decide) (by decide) (by decide)
  · exact makeRequest_client_error_terminal.2.2.1 Nat trC1b [30000] 0 0 none
      true [] 0 [] ⟨429, "Too Many Requests", some {}⟩ rfl (Or.inl rfl)
  · exact makeRequest_client_error_terminal.2.2.2 Nat trC1c [30000] 0 0 none
      true [] 0 [] "down" rfl

/-- Claim C2: under retryable failures (429, 5xx or transport failure) the
executor performs exactly `retryAttempts` calls (and never more than
`retryAttempts` for any transport), sleeping `2 ^ attempt * 1000` ms
between consecutive attempts — `1000, 2000, 4000, ...` in order — with no
sleep after the last attempt. -/
theorem makeRequest_backoff_schedule (tr : Nat → Attempt Nat) (t n : Nat)
    (hall : ∀ i, i < n → retryableAttempt (tr i) = true) :
    (makeRequest tr ⟨t, n⟩).calls = n ∧
    (makeRequest tr ⟨t, n⟩).sleeps =
      (List.range (n - 1)).map (fun a => 2 ^ a * 1000) ∧
    ∀ (tr2 : Nat → Attempt Nat), (makeRequest tr2 ⟨t, n⟩).calls ≤ n := by
  obtain ⟨hs, hc⟩ := makeRequestLoop_all_retryable tr [t] n 0 none true [] 0 []
    (fun i _ h2 => hall i (by omega))
  refine ⟨hc.trans (Nat.zero_add n), hs.trans ?_, ?_⟩
  · rw [List.nil_append, expSleeps_eq_range_map]
    simp
  · intro tr2
    exact Nat.le_trans
      (makeRequestLoop_calls_le tr2 [t] n 0 none true [] 0 []) (by omega)

/-- Transport failing at the network level forever, for the C2 witness. -/
def trC2 : Nat → Attempt Nat := fun _ => .netError "socket hang up"

/-- Claim C2 witness: with three attempts all failing, three calls are made
and the sleeps are 1000 then 2000 ms. -/
theorem makeRequest_backoff_schedule_witness :
    (makeRequest trC2 ⟨30000, 3⟩).calls = 3 ∧
    (makeRequest trC2 ⟨30000, 3⟩).sleeps =
      (List.range 2).map (fun a => 2 ^ a * 1000) := by
  obtain ⟨h1, h2, _⟩ := makeRequest_backoff_schedule trC2 30000 3
    (fun i _ => rfl)
  exact ⟨h1, h2⟩

/-- The 500 response used for claim C3. -/
def respC3 : ErrResponse :=
  ⟨500, "Internal Server Error", some ⟨none, some "boom", some "SRV"⟩⟩

/-- Transport returning `respC3` forever, for claim C3. -/
def trC3 : Nat → Attempt Nat := fun _ => .httpError respC3

/-- Claim C3 counterexample: with `retryAttempts = 3` and three consecutive
500s the call does fail after sleeps 1000 and 2000 ms, but with a fresh
generic error — message copied from the classified error, no status code,
code `REQUEST_FAILED` — not with the final response's classified error,
which carries status 500 and code `SRV`. -/
theorem makeRequest_exhaustion_counterexample :
    (makeRequest trC3 ⟨30000, 3⟩).sleeps = [1000, 2000] ∧
    (makeRequest trC3 ⟨30000, 3⟩).result =
      .error ⟨"boom", none, some "REQUEST_FAILED", none⟩ ∧
    handleErrorResponse respC3 =
      ⟨"boom", some 500, some "SRV", some ⟨none, some "boom", some "SRV"⟩⟩ ∧
    (makeRequest trC3 ⟨30000, 3⟩).result ≠
      .error (handleErrorResponse respC3) := by decide

/-- Claim C3 amended: with `retryAttempts = 3` and a transport returning
the same 500 response on all three attempts, `makeRequest` fails after
exactly two sleeps (1000 then 2000 ms) with a generic `REQUEST_FAILED`
error whose message is the final classified error's message but which
carries no status code and not the classified error's code. -/
theorem makeRequest_exhaustion_generic_failure (t : Nat)
    (tr : Nat → Attempt Nat) (resp : ErrResponse) (hst : resp.status = 500)
    (htr : ∀ i, i < 3 → tr i = .httpError resp) :
    (makeRequest tr ⟨t, 3⟩).sleeps = [1000, 2000] ∧
    (makeRequest tr ⟨t, 3⟩).result =
      .error ⟨(handleErrorResponse resp).message, none,
        some "REQUEST_FAILED", none⟩ := by
  have ht : isTerminal (handleErrorResponse resp) = false :=
    isTerminal_false_of_retryable resp (Or.inr (by omega))
  have h0 := htr 0 (by omega)
  have h1 := htr 1 (by omega)
  have h2 := htr 2 (by omega)
  have e1 : makeRequest tr ⟨t, 3⟩ =
      makeRequestLoop tr [t] 2 1
        (some (.classified (handleErrorResponse resp))) false [1000] 1
        [true] :=
    makeRequestLoop_http_retry h0 ht (by decide)
  have e2 : makeRequestLoop tr [t] 2 1
        (some (.classified (handleErrorResponse resp))) false [1000] 1
        [true] =
      makeRequestLoop tr [t] 1 2
        (some (.classified (handleErrorResponse resp))) false [1000, 2000] 2
        [true, false] :=
    makeRequestLoop_http_retry h1 ht (by decide)
  have e3 : makeRequestLoop tr [t] 1 2
        (some (.classified (handleErrorResponse resp))) false [1000, 2000] 2
        [true, false] =
      ⟨.error (genericFailure (some (.classified (handleErrorResponse resp)))),
        [1000, 2000], 3, [true, false, false], false, [t]⟩ :=
    makeRequestLoop_http_last h2 ht
  have step := (e1.trans e2).trans e3
  rw [step]
  refine ⟨rfl, ?_⟩
  rw [genericFailure_classified (handleErrorResponse resp)
    (handleErrorResponse_message_ne_empty resp)]

/-- Claim C3 amended witness: the concrete three-consecutive-500 run. -/
theorem makeRequest_exhaustion_generic_failure_witness :
    (makeRequest trC3 ⟨30000, 3⟩).sleeps = [1000, 2000] ∧
    (makeRequest trC3 ⟨30000, 3⟩).result =
      .error ⟨(handleErrorResponse respC3).message, none,
        some "REQUEST_FAILED", none⟩ :=
  makeRequest_exhaustion_generic_failure 30000 trC3 respC3 rfl
    (fun _ _ => rfl)

/-- Claim C4: the classifier reproduces the mapping table exactly — 401 to
the fixed authentication error, 404 to `PAYMENT_NOT_FOUND` with the body's
`paymentId` (or `unknown`) in the message, 400 to `VALIDATION_ERROR` with
the body's `message` (or `Validation failed`) and the full body as
details, and any other status to a generic error with the body's `message`
(or the `HTTP status: statusText` template), the response status and the
body's `code`. -/
theorem handleErrorResponse_mapping (resp : ErrResponse) (b : Body)
    (hb : resp.body = some b) :
    (resp.status = 401 → handleErrorResponse resp =
      ⟨"Invalid or missing API key", some 401, some "INVALID_AUTH", none⟩) ∧
    (resp.status = 404 → handleErrorResponse resp =
      ⟨"Payment with ID " ++ jsOrStr b.paymentId "unknown" ++ " not found",
        some 404, some "PAYMENT_NOT_FOUND", none⟩) ∧
    (resp.status = 400 → handleErrorResponse resp =
      ⟨jsOrStr b.message "Validation failed", some 400,
        some "VALIDATION_ERROR", some b⟩) ∧
    (resp.status ≠ 401 → resp.status ≠ 404 → resp.status ≠ 400 →
      handleErrorResponse resp =
        ⟨jsOrStr b.message
            ("HTTP " ++ toString resp.status ++ ": " ++ resp.statusText),
          some resp.status, b.code, some b⟩) := by
  refine ⟨?_, ?_, ?_, ?_⟩
  · intro h1
    simp [handleErrorResponse, hb, h1, AuthenticationError]
  · intro h1
    simp [handleErrorResponse, hb, h1, PaymentNotFoundError]
  · intro h1
    simp [handleErrorResponse, hb, h1, ValidationError]
  · intro h1 h2 h3
    simp [handleErrorResponse, hb, h1, h2, h3]

/-- The response body used for the C4 witness. -/
def bodyC4 : Body := ⟨some "X", some "bad input", some "EBAD"⟩

/-- Claim C4 witness: the four classifier branches evaluated on a concrete
body. -/
theorem handleErrorResponse_mapping_witness :
    handleErrorResponse ⟨401, "Unauthorized", some bodyC4⟩ =
      ⟨"Invalid or missing API key", some 401, some "INVALID_AUTH", none⟩ ∧
    handleErrorResponse ⟨404, "Not Found", some bodyC4⟩ =
      ⟨"Payment with ID " ++ jsOrStr bodyC4.paymentId "unknown" ++
          " not found",
        some 404, some "PAYMENT_NOT_FOUND", none⟩ ∧
    handleErrorResponse ⟨400, "Bad Request", some bodyC4⟩ =
      ⟨jsOrStr bodyC4.message "Validation failed", some 400,
        some "VALIDATION_ERROR", some bodyC4⟩ ∧
    handleErrorResponse ⟨503, "Service Unavailable", some bodyC4⟩ =
      ⟨jsOrStr bodyC4.message
          ("HTTP " ++ toString 503 ++ ": " ++ "Service Unavailable"),
        some 503, bodyC4.code, some bodyC4⟩ := by
  refine ⟨?_, ?_, ?_, ?_⟩
  · exact (handleErrorResponse_mapping ⟨401, "Unauthorized", some bodyC4⟩
      bodyC4 rfl).1 rfl
  · exact (handleErrorResponse_mapping ⟨404, "Not Found", some bodyC4⟩
      bodyC4 rfl).2.1 rfl
  · exact (handleErrorResponse_mapping ⟨400, "Bad Request", some bodyC4⟩
      bodyC4 rfl).2.2.1 rfl
  · exact (handleErrorResponse_mapping ⟨503, "Service Unavailable", some bodyC4⟩
      bodyC4 rfl).2.2.2 (by decide) (by decide) (by decide)

/-- Claim C5: on failure `wrapResponse` returns the error arm — a
classified `KonnectSDKError` passes through with message, status code,
code and details unchanged, and any other failure becomes `UNKNOWN_ERROR`
with the failure's message, or the literal `Unknown error` when the thrown
value carries no message. -/
theorem wrapResponse_error_passthrough (T : Type) (e : KonnectError)
    (m : String) :
    wrapResponse (T := T) (.error (.sdkError e)) =
      ⟨none, some ⟨e.message, e.statusCode, e.code, e.details⟩⟩ ∧
    wrapResponse (T := T) (.error (.sdkError e)) = ⟨none, some e⟩ ∧
    wrapResponse (T := T) (.error (.jsError m)) =
      ⟨none, some ⟨m, none, some "UNKNOWN_ERROR", none⟩⟩ ∧
    wrapResponse (T := T) (.error .nonError) =
      ⟨none, some ⟨"Unknown error", none, some "UNKNOWN_ERROR", none⟩⟩ := by
  refine ⟨rfl, ?_, rfl, rfl⟩
  simp [wrapResponse, KonnectError.toJSON]

/-- Claim C6: `wrapResponse` always returns an envelope with exactly one
arm populated — success with data and a null error, or a null data and a
populated error — never both, never neither (and, being a total function
of the operation's outcome, it never lets a failure escape). -/
theorem wrapResponse_exactly_one_arm (T : Type) (op : Except Thrown T) :
    ((∃ v, (wrapResponse op).data = some v) ∧ (wrapResponse op).error = none)
      ∨
    ((wrapResponse op).data = none ∧ ∃ e, (wrapResponse op).error = some e) := by
  cases op with
  | ok v => exact Or.inl ⟨⟨v, rfl⟩, rfl⟩
  | error t =>
    cases t with
    | sdkError e => exact Or.inr ⟨rfl, ⟨e.toJSON, rfl⟩⟩
    | jsError m =>
      exact Or.inr ⟨rfl, ⟨⟨m, none, some "UNKNOWN_ERROR", none⟩, rfl⟩⟩
    | nonError =>
      exact Or.inr ⟨rfl,
        ⟨⟨"Unknown error", none, some "UNKNOWN_ERROR", none⟩, rfl⟩⟩

/-- Claim C7: with `retryAttempts = 0` the loop never runs — zero
transport calls, zero sleeps — and the call fails at once with the generic
`REQUEST_FAILED` error carrying the fixed fallback message and no status
code. -/
theorem makeRequest_zero_attempts (T : Type) (tr : Nat → Attempt T)
    (t : Nat) :
    makeRequest tr ⟨t, 0⟩ =
      ⟨.error ⟨"Request failed after retries", none,
          some "REQUEST_FAILED", none⟩,
        [], 0, [], false, [t]⟩ := by
  show makeRequestLoop tr [t] 0 0 none true [] 0 [] = _
  rw [makeRequestLoop_zero]
  simp [genericFailure, jsOrStr]

/-- Claim C8 counterexample: when the body is unparseable the fallback body
is `{message: statusText}`, so a 400 response with status text
`Bad Request` classifies with message `Bad Request`, not the claimed
`Validation failed` fallback, and a 503 classifies with the status text,
not the claimed `HTTP status: statusText` template. -/
theorem handleErrorResponse_unparsed_counterexample :
    (handleErrorResponse ⟨400, "Bad Request", none⟩).message = "Bad Request" ∧
    (handleErrorResponse ⟨400, "Bad Request", none⟩).message ≠
      "Validation failed" ∧
    (handleErrorResponse ⟨503, "Service Unavailable", none⟩).message =
      "Service Unavailable" ∧
    (handleErrorResponse ⟨503, "Service Unavailable", none⟩).message ≠
      "HTTP " ++ toString 503 ++ ": " ++ "Service Unavailable" := by decide

/-- Claim C8 amended: an unparseable body never escapes the classifier —
it degrades to the substitute body `{message: statusText}`, so a
classified error with the response's status is still produced: 404 yields
the `unknown` identifier; 400 and every non-401/404 status use the status
text as the message, falling back to `Validation failed` respectively to
the `HTTP status: statusText` template only when the status text is
empty. -/
theorem handleErrorResponse_unparsed_fallback (s : Nat) (st : String) :
    (handleErrorResponse ⟨s, st, none⟩).statusCode = some s ∧
    (s = 404 → handleErrorResponse ⟨s, st, none⟩ =
      PaymentNotFoundError "unknown") ∧
    (s = 400 → st ≠ "" →
      (handleErrorResponse ⟨s, st, none⟩).message = st) ∧
    (s = 400 → st = "" →
      (handleErrorResponse ⟨s, st, none⟩).message = "Validation failed") ∧
    (s ≠ 401 → s ≠ 404 → s ≠ 400 → st ≠ "" →
      (handleErrorResponse ⟨s, st, none⟩).message = st) ∧
    (s ≠ 401 → s ≠ 404 → s ≠ 400 → st = "" →
      (handleErrorResponse ⟨s, st, none⟩).message =
        "HTTP " ++ toString s ++ ": " ++ st) := by
  refine ⟨handleErrorResponse_statusCode ⟨s, st, none⟩, ?_, ?_, ?_, ?_, ?_⟩
  · intro h1
    simp [handleErrorResponse, h1, jsOrStr]
  · intro h1 h2
    simp [handleErrorResponse, h1, jsOrStr, ValidationError, h2]
  · intro h1 h2
    simp [handleErrorResponse, h1, jsOrStr, ValidationError, h2]
  · intro h1 h2 h3 h4
    simp [handleErrorResponse, h1, h2, h3, jsOrStr, h4]
  · intro h1 h2 h3 h4
    simp [handleErrorResponse, h1, h2, h3, jsOrStr, h4]

/-- Claim C8 amended witness: the fallback classification evaluated at
concrete statuses with and without an empty status text. -/
theorem handleErrorResponse_unparsed_fallback_witness :
    handleErrorResponse ⟨404, "Not Found", none⟩ =
      PaymentNotFoundError "unknown" ∧
    (handleErrorResponse ⟨400, "Bad Request", none⟩).message =
      "Bad Request" ∧
    (handleErrorResponse ⟨400, "", none⟩).message = "Validation failed" ∧
    (handleErrorResponse ⟨500, "Internal Server Error", none⟩).message =
      "Internal Server Error" ∧
    (handleErrorResponse ⟨500, "", none⟩).message =
      "HTTP " ++ toString 500 ++ ": " ++ "" := by
  refine ⟨?_, ?_, ?_, ?_, ?_⟩
  · exact (handleErrorResponse_unparsed_fallback 404 "Not Found").2.1 rfl
  · exact (handleErrorResponse_unparsed_fallback 400 "Bad Request").2.2.1 rfl
      (by decide)
  · exact (handleErrorResponse_unparsed_fallback 400 "").2.2.2.1 rfl rfl
  · exact (handleErrorResponse_unparsed_fallback 500
      "Internal Server Error").2.2.2.2.1 (by decide) (by decide) (by decide)
      (by decide)
  · exact (handleErrorResponse_unparsed_fallback 500 "").2.2.2.2.2
      (by decide) (by decide) (by decide) rfl

/-- The 500 response with a parseable body used for claim C9. -/
def respC9 : ErrResponse := ⟨500, "Internal Server Error", some {}⟩

/-- Transport returning `respC9` forever, for claim C9. -/
def trC9 : Nat → Attempt Nat := fun _ => .httpError respC9

/-- Claim C9 counterexample: with two attempts both answering 500, the
second fetch is issued after the deadline timer has already been cleared
(cleared as soon as the first fetch resolved), so the single deadline does
not cover all retry attempts. -/
theorem makeRequest_timer_counterexample :
    (makeRequest trC9 ⟨30000, 2⟩).fetchLog = [true, false] ∧
    ¬ (∀ b ∈ (makeRequest trC9 ⟨30000, 2⟩).fetchLog, b = true) := by decide

/-- Claim C9 amended: exactly one deadline timer is armed per call, at call
start, with duration `config.timeout`; it is cleared on every exit path
(no timer outlives the call) and it covers the first transport attempt —
but it is cleared as soon as a fetch resolves, so it does not cover retry
attempts issued after a resolved response. -/
theorem makeRequest_timer_lifecycle (T : Type) (tr : Nat → Attempt T)
    (t n : Nat) :
    (makeRequest tr ⟨t, n⟩).armedTimers = [t] ∧
    (makeRequest tr ⟨t, n⟩).armedAtExit = false ∧
    (1 ≤ n → ∃ rest, (makeRequest tr ⟨t, n⟩).fetchLog = true :: rest) := by
  refine ⟨?_, ?_, ?_⟩
  · exact makeRequestLoop_armedTimers tr [t] n 0 none true [] 0 []
  · exact makeRequestLoop_armedAtExit tr [t] n 0 none true [] 0 []
  · intro hn
    obtain ⟨n2, rfl⟩ : ∃ n2, n = n2 + 1 := ⟨n - 1, by omega⟩
    obtain ⟨rest, hrest⟩ :=
      makeRequestLoop_fetchLog_cons tr [t] n2 0 none true [] 0 []
    exact ⟨rest, hrest⟩

/-- Claim C9 amended witness: the timer lifecycle on the concrete
two-attempt 500 run. -/
theorem makeRequest_timer_lifecycle_witness :
    (makeRequest trC9 ⟨30000, 2⟩).armedTimers = [30000] ∧
    (makeRequest trC9 ⟨30000, 2⟩).armedAtExit = false ∧
    ∃ rest, (makeRequest trC9 ⟨30000, 2⟩).fetchLog = true :: rest := by
  obtain ⟨h1, h2, h3⟩ := makeRequest_timer_lifecycle Nat trC9 30000 2
  exact ⟨h1, h2, h3 (by decide)⟩

/-- Claim C10: the constructor replaces a falsy `retryAttempts` (absent or
zero) with the default 3 and a zero timeout with 30000, so every
successfully constructed SDK instance has `retryAttempts` at least 1 and
each request through `KonnectSDK.request` issues at least one transport
call — the zero-attempt edge case is unreachable from the public API. -/
theorem sdk_constructor_defaults (config : KonnectConfig) (s : SDKState)
    (h : KonnectSDK.new config = .ok s) :
    ((config.retryAttempts = none ∨ config.retryAttempts = some 0) →
      s.retryAttempts = 3) ∧
    (config.timeout = some 0 → s.timeout = 30000) ∧
    1 ≤ s.retryAttempts ∧
    ∀ (tr : Nat → Attempt Nat), 1 ≤ (KonnectSDK.request s tr).calls := by
  unfold KonnectSDK.new at h
  cases hv : validateConfig config with
  | some e =>
    rw [hv] at h
    exact absurd h (by simp)
  | none =>
    rw [hv] at h
    have hs := Except.ok.inj h
    subst hs
    have hpos : 1 ≤ (jsOrInt config.retryAttempts 3).toNat := by
      unfold validateConfig at hv
      split_ifs at hv with v1 v2 v3
      cases hcr : config.retryAttempts with
      | none => simp [jsOrInt]
      | some k =>
        by_cases hk : k = 0
        · simp [jsOrInt, hk]
        · have hk0 : ¬ (k < 0) := by
            intro hlt
            rw [hcr] at v3
            simp [intTruthy, hk, hlt] at v3
          simp only [jsOrInt, hk, if_false]
          omega
    refine ⟨?_, ?_, hpos, ?_⟩
    · intro hra
      rcases hra with h1 | h1 <;> simp [h1, jsOrInt]
    · intro ht0
      simp [ht0, jsOrInt]
    · intro tr
      show 1 ≤ (makeRequestLoop tr
        [(jsOrInt config.timeout 30000).toNat]
        ((jsOrInt config.retryAttempts 3).toNat) 0 none true [] 0 []).calls
      obtain ⟨m2, hm⟩ : ∃ m2, (jsOrInt config.retryAttempts 3).toNat = m2 + 1 :=
        ⟨(jsOrInt config.retryAttempts 3).toNat - 1, by omega⟩
      rw [hm]
      exact makeRequestLoop_calls_pos tr _ m2 0 none true [] 0 []

/-- The constructor input used for the C10 witness: an explicit
`retryAttempts` of 0. -/
def cfgC10 : KonnectConfig := ⟨"key", none, some 0⟩

/-- The resulting SDK state for the C10 witness. -/
def sdkC10 : SDKState := ⟨"key", 30000, 3⟩

/-- Transport succeeding immediately, for the C10 witness. -/
def trC10 : Nat → Attempt Nat := fun _ => .ok 7

/-- Claim C10 witness: constructing with `retryAttempts = 0` yields the
default 3, and a request issues at least one call. -/
theorem sdk_constructor_defaults_witness :
    sdkC10.retryAttempts = 3 ∧ 1 ≤ sdkC10.retryAttempts ∧
    1 ≤ (KonnectSDK.request sdkC10 trC10).calls := by
  obtain ⟨h1, _, h3, h4⟩ := sdk_constructor_defaults cfgC10 sdkC10 (by decide)
  exact ⟨h1 (Or.inr rfl), h3, h4 trC10⟩

end Konnect
